import Mathlib

/-!
# Verification of the no-cache static file server (`src/example/server.py`)

The repository is a thin wrapper `NoCacheHandler` over Python's standard
`SimpleHTTPRequestHandler`, plus a `main` that reads `PORT` / `ROOT_DIR`
from the environment, binds `127.0.0.1:<port>` and serves forever until
interrupted.

The code written in the repository itself is embedded directly:
* `endHeaders` — `NoCacheHandler.end_headers` (the three cache-defeating
  headers appended before the buffered headers are flushed);
* `readConfig` / `startup` — `main`'s environment reads and bind order;
* `mainExit` — `main`'s `try/except KeyboardInterrupt/finally` block.

The file-serving behaviour itself (path resolution, directory listing,
method dispatch, error mapping) lives in Python's standard library, which
is not part of the repository sources; those parts are modelled from the
spec (each such definition's doc comment starts with `Modelled from the
spec:`).
-/

namespace NoCacheServer

/-- Split a character list on `/` separators. -/
def splitSlash : List Char → List (List Char)
  | [] => [[]]
  | c :: cs =>
    if c = '/' then [] :: splitSlash cs
    else
      match splitSlash cs with
      | [] => [[c]]
      | g :: gs => (c :: g) :: gs

/-- Modelled from the spec: the request path is broken into slash-separated
components; empty components (leading, trailing or doubled slashes)
contribute nothing. -/
def splitPath (p : String) : List String :=
  ((splitSlash p.data).filter (fun l => !l.isEmpty)).map String.mk

/-- Modelled from the spec: normalize the slash-separated components of a
request path relative to `root_directory`.  `.` components are dropped,
`..` pops the previously accepted component, and a `..` with nothing left
to pop would escape the root, which the responder must reject: the result
is `none`.  `acc` holds the components accepted so far, in reverse. -/
def normComponents : List String → List String → Option (List String)
  | acc, [] => some acc.reverse
  | acc, c :: cs =>
    if c = "." then normComponents acc cs
    else if c = ".." then
      match acc with
      | [] => none
      | _ :: rest => normComponents rest cs
    else normComponents (c :: acc) cs

/-- A filesystem tree rooted at `root_directory`.  A file carries its
on-disk bytes (as a string) and a readability flag; a directory carries
its named entries. -/
inductive Node where
  | file (content : String) (readable : Bool)
  | dir (entries : List (String × Node))

/-- Look up a name among a directory's entries. -/
def findEntry (es : List (String × Node)) (nm : String) : Option Node :=
  (es.find? (fun e => decide (e.1 = nm))).map (fun e => e.2)

/-- Resolve normalized path components inside the root tree. -/
def resolve : Node → List String → Option Node
  | n, [] => some n
  | Node.dir es, c :: cs =>
    match findEntry es c with
    | some n => resolve n cs
    | none => none
  | Node.file _ _, _ :: _ => none

/-- Does the raw request path end in a slash? -/
def endsWithSlash (p : String) : Bool :=
  match p.data.getLast? with
  | some c => c = '/'
  | none => false

/-- An HTTP request as the responder sees it: method and URL path. -/
structure Request where
  method : String
  path : String
  deriving DecidableEq

/-- An HTTP response: status code, headers in send order, body bytes. -/
structure Response where
  status : Nat
  headers : List (String × String)
  body : String
  deriving DecidableEq

/-- The three cache-defeating headers sent by `NoCacheHandler.end_headers`
(`src/example/server.py` lines 8–10), in source order. -/
def noCacheHeaders : List (String × String) :=
  [("Cache-Control", "no-store, no-cache, must-revalidate, max-age=0"),
   ("Pragma", "no-cache"),
   ("Expires", "0")]

/-- `NoCacheHandler.end_headers`: the headers already buffered by the
underlying file-serving logic are followed by the three extra
`send_header` calls, after which `super().end_headers()` flushes the
buffer.  So the final header list is the buffered list with
`noCacheHeaders` appended. -/
def endHeaders (buffered : List (String × String)) : List (String × String) :=
  buffered ++ noCacheHeaders

/-- Modelled from the spec: infer a content type from the file extension. -/
def guessType (p : String) : String :=
  if p.endsWith ".html" ∨ p.endsWith ".htm" then "text/html"
  else "application/octet-stream"

/-- Modelled from the spec: a success response streaming a file's bytes,
with the transport headers the underlying logic produces. -/
def okFile (p : String) (content : String) : Response :=
  { status := 200,
    headers := [("Content-type", guessType p),
                ("Content-Length", toString content.length)],
    body := content }

def forbiddenBody : String := "403 Forbidden: path escapes the root directory"

def notFoundBody : String := "404 File not found"

def serverErrorBody : String := "500 Internal error reading file"

def methodNotAllowedBody : String := "405 Method not allowed"

/-- Modelled from the spec: an error response with the transport headers
the underlying logic produces for errors. -/
def errorResponse (code : Nat) (msg : String) : Response :=
  { status := code,
    headers := [("Content-type", "text/html;charset=utf-8"),
                ("Connection", "close")],
    body := msg }

/-- The names of a directory's entries, in order. -/
def entryNames (es : List (String × Node)) : List String :=
  es.map (fun e => e.1)

/-- One `<li>` line per entry of a generated directory listing. -/
def listingItems : List String → String
  | [] => ""
  | n :: ns => "<li><a href=\"" ++ n ++ "\">" ++ n ++ "</a></li>" ++ listingItems ns

/-- Modelled from the spec: the generated HTML listing linking to each
contained entry of a directory. -/
def listingBody (names : List String) : String :=
  "<html><body><ul>" ++ listingItems names ++ "</ul></body></html>"

/-- Modelled from the spec: serve an index file if one exists by
convention (`index.html`, then `index.htm`); returns its content and
readability flag. -/
def indexFile (es : List (String × Node)) : Option (String × Bool) :=
  match findEntry es "index.html" with
  | some (Node.file c r) => some (c, r)
  | _ =>
    match findEntry es "index.htm" with
    | some (Node.file c r) => some (c, r)
    | _ => none

/-- Modelled from the spec: the Static File Responder for a `GET` path,
before header injection.  Normalization failure (escape) is rejected with
a forbidden response; an unresolved path is not found; a regular file is
streamed (500 on a read error); a directory without a trailing slash
redirects; a directory with a trailing slash serves its index file if one
exists, else a generated listing. -/
def rawGet (fs : Node) (p : String) : Response :=
  match normComponents [] (splitPath p) with
  | none => errorResponse 403 forbiddenBody
  | some comps =>
    match resolve fs comps with
    | none => errorResponse 404 notFoundBody
    | some (Node.file c r) =>
      if r then okFile p c else errorResponse 500 serverErrorBody
    | some (Node.dir es) =>
      if endsWithSlash p then
        match indexFile es with
        | some (c, r) => if r then okFile p c else errorResponse 500 serverErrorBody
        | none =>
          { status := 200,
            headers := [("Content-type", "text/html;charset=utf-8"),
                        ("Content-Length", toString (listingBody (entryNames es)).length)],
            body := listingBody (entryNames es) }
      else
        { status := 301, headers := [("Location", p ++ "/")], body := "" }

/-- Modelled from the spec: method dispatch.  `GET` and `HEAD` are the
supported methods (`HEAD` sends the same headers with an empty body);
any other method maps to a method-not-allowed response. -/
def rawHandle (fs : Node) (req : Request) : Response :=
  if req.method = "GET" then rawGet fs req.path
  else if req.method = "HEAD" then
    let r := rawGet fs req.path
    { r with body := "" }
  else errorResponse 405 methodNotAllowedBody

/-- The complete responder: the underlying file-serving logic followed by
`NoCacheHandler.end_headers`, which appends the cache-defeating headers
to every response unconditionally. -/
def handle (fs : Node) (req : Request) : Response :=
  let r := rawHandle fs req
  { r with headers := endHeaders r.headers }

/-- The serve loop applied to a finite request trace: each request is
handled independently and statelessly. -/
def serveAll (fs : Node) (reqs : List Request) : List Response :=
  reqs.map (handle fs)

/-- One accumulation step over the digits (and internal underscores) of a
decimal literal, as Python's `int` accepts them: an underscore must be
followed by a digit (and, by the entry condition of `parseUInt`, is also
preceded by one). -/
def parseDigits : Nat → List Char → Option Nat
  | acc, [] => some acc
  | acc, c :: cs =>
    if c = '_' then
      match cs with
      | d :: _ => if d.isDigit then parseDigits acc cs else none
      | [] => none
    else if c.isDigit then parseDigits (acc * 10 + (c.toNat - 48)) cs
    else none

/-- An unsigned decimal literal: non-empty, starting with a digit, with
single underscores allowed only between digits. -/
def parseUInt : List Char → Option Nat
  | [] => none
  | c :: cs => if c.isDigit then parseDigits (c.toNat - 48) cs else none

/-- Drop leading whitespace. -/
def dropWS (l : List Char) : List Char :=
  l.dropWhile (fun c => c.isWhitespace)

/-- Strip whitespace from both ends. -/
def trimChars (l : List Char) : List Char :=
  ((dropWS l).reverse.dropWhile (fun c => c.isWhitespace)).reverse

/-- Python's `int(s)` on a string: strips surrounding whitespace, accepts
an optional single sign, then a decimal literal; any other input raises
`ValueError`, modelled as `none`. -/
def pyIntParse (s : String) : Option Int :=
  match trimChars s.data with
  | '-' :: rest => (parseUInt rest).map (fun n => -(n : Int))
  | '+' :: rest => (parseUInt rest).map (fun n => (n : Int))
  | t => (parseUInt t).map (fun n => (n : Int))

/-- The process configuration built by `main`
(`src/example/server.py` lines 14–16). -/
structure Config where
  port : Int
  root : String
  host : String
  deriving DecidableEq

/-- `main`'s configuration phase: `port = int(os.environ.get("PORT",
"8000"))` and `root = os.environ.get("ROOT_DIR", "./")`, read once from
the process environment; the bind host is the literal `"127.0.0.1"`.
`int` raising `ValueError` is modelled as `none`. -/
def readConfig (env : String → Option String) : Option Config :=
  match pyIntParse ((env "PORT").getD "8000") with
  | none => none
  | some p => some { port := p, root := (env "ROOT_DIR").getD "./", host := "127.0.0.1" }

/-- What the process has done by the time startup finishes: either an
uncaught exception terminated it before any socket existed, or it bound a
listening socket. -/
inductive Startup where
  | failedBeforeBind
  | bound (host : String) (port : Int) (root : String)
  deriving DecidableEq

/-- `main`'s startup order: line 14 (the `int` call) runs before line 18
(`ThreadingHTTPServer((...), handler)`, which creates and binds the
socket), so a `ValueError` from `int` propagates uncaught before any
socket is created; otherwise the server binds `(config.host,
config.port)`. -/
def startup (env : String → Option String) : Startup :=
  match readConfig env with
  | none => Startup.failedBeforeBind
  | some c => Startup.bound c.host c.port c.root

/-- The outcome of a Python block: a value, or a named raised exception. -/
inductive PyResult (α : Type) where
  | ok (val : α)
  | exn (name : String)
  deriving DecidableEq

/-- The serve phase of `main` (`src/example/server.py` lines 20–25):
`try: httpd.serve_forever()` with `except KeyboardInterrupt:
print("\nShutting down...")`.  An interrupt is caught, prints the
shutdown line and leaves the block normally; any other exception
propagates; output printed in the block and the resulting control flow. -/
def serveBlock (serveOutcome : PyResult Unit) : List String × PyResult Unit :=
  match serveOutcome with
  | PyResult.exn nm =>
    if nm = "KeyboardInterrupt" then (["\nShutting down..."], PyResult.ok ())
    else ([], PyResult.exn nm)
  | PyResult.ok _ => ([], PyResult.ok ())

/-- The observable exit state of `main` after the serve phase. -/
structure MainExit where
  printed : List String
  socketClosed : Bool
  result : PyResult Unit
  deriving DecidableEq

/-- `main`'s shutdown behaviour as a function of how `serve_forever`
ended: the `try/except` of `serveBlock`, then `finally:
httpd.server_close()` (and the enclosing `with` block's exit), which
close the listening socket on every path before `main` returns.  A
`PyResult.ok` result means `main` returns normally, so the process exits
with code zero. -/
def mainExit (serveOutcome : PyResult Unit) : MainExit :=
  let (out, res) := serveBlock serveOutcome
  { printed := out, socketClosed := true, result := res }

end NoCacheServer

namespace NoCacheServer

/-- Appending strings concatenates their character data. -/
theorem strData_append (a b : String) : (a ++ b).data = a.data ++ b.data := by
  cases a
  cases b
  rfl

/-- Any component list a successful normalization produces is free of `..`
and `.` components, provided the accumulator already is: resolution can
only descend into the root tree, never climb out of it. -/
theorem normComponents_clean (l : List String) :
    ∀ acc comps, (∀ x ∈ acc, x ≠ ".." ∧ x ≠ ".") →
      normComponents acc l = some comps → ∀ x ∈ comps, x ≠ ".." ∧ x ≠ "." := by
  induction l with
  | nil =>
    intro acc comps hacc h x hx
    simp only [normComponents, Option.some.injEq] at h
    subst h
    exact hacc x (List.mem_reverse.mp hx)
  | cons c cs ih =>
    intro acc comps hacc h x hx
    by_cases h1 : c = "."
    · simp only [normComponents, if_pos h1] at h
      exact ih acc comps hacc h x hx
    · by_cases h2 : c = ".."
      · simp only [normComponents, if_neg h1, if_pos h2] at h
        cases acc with
        | nil => exact Option.noConfusion h
        | cons a rest =>
          exact ih rest comps (fun y hy => hacc y (List.mem_cons_of_mem a hy)) h x hx
      · simp only [normComponents, if_neg h1, if_neg h2] at h
        refine ih (c :: acc) comps ?_ h x hx
        intro y hy
        rcases List.mem_cons.mp hy with hyc | hy2
        · subst hyc
          exact ⟨h2, h1⟩
        · exact hacc y hy2

/-- A listed entry name occurs verbatim inside the generated item lines. -/
theorem listingItems_has_name (nm : String) (names : List String) (h : nm ∈ names) :
    nm.data <:+: (listingItems names).data := by
  induction names with
  | nil => cases h
  | cons m ms ih =>
    rcases List.mem_cons.mp h with hm | hm
    · subst hm
      refine ⟨("<li><a href=\"" : String).data,
              (("\">" ++ nm ++ "</a></li>" ++ listingItems ms) : String).data, ?_⟩
      simp [listingItems, strData_append, List.append_assoc]
    · refine (ih hm).trans
        ⟨(("<li><a href=\"" ++ m ++ "\">" ++ m ++ "</a></li>") : String).data, [], ?_⟩
      simp [listingItems, strData_append, List.append_assoc]

/-- A listed entry name occurs verbatim inside the generated HTML listing. -/
theorem listingBody_has_name (nm : String) (names : List String) (h : nm ∈ names) :
    nm.data <:+: (listingBody names).data :=
  (listingItems_has_name nm names h).trans
    ⟨("<html><body><ul>" : String).data, ("</ul></body></html>" : String).data,
     by simp [listingBody, strData_append, List.append_assoc]⟩

/-- C1: every response, whatever its status or resource type, carries the
three cache-defeating headers with exactly the literal values of
`NoCacheHandler.end_headers`, in source order, appended after the headers
the underlying file-serving logic buffered for that response. -/
theorem c1_cache_headers_always (fs : Node) (req : Request) :
    (handle fs req).headers =
      (rawHandle fs req).headers ++
        [("Cache-Control", "no-store, no-cache, must-revalidate, max-age=0"),
         ("Pragma", "no-cache"),
         ("Expires", "0")] := rfl

end NoCacheServer

namespace NoCacheServer

/-- The root tree of the traversal scenario: the tree of served files; the
file one level above the root is, by construction of the model, not part
of it. -/
def fsRoot : Node := Node.dir [("a.txt", Node.file "inside" true)]

/-- Root tree holding a single `index.html` with content `hello`. -/
def fsHello : Node := Node.dir [("index.html", Node.file "hello" true)]

/-- Root tree holding a single unreadable file. -/
def fsLocked : Node := Node.dir [("secret.txt", Node.file "locked" false)]

/-- Root tree holding a subdirectory `docs` with no index file. -/
def fsDocs : Node := Node.dir [("docs", Node.dir [("a.txt", Node.file "A" true)])]

/-- C2: a `GET`/`HEAD` request whose normalized path would escape
`root_directory` gets status 403 (a client error) and a fixed diagnostic
body that carries no file content; and every path that does normalize
successfully is free of `..`/`.` components, so resolution only ever
descends inside the root tree — no resolved filesystem path lies outside
`root_directory`. -/
theorem c2_sandbox (fs : Node) (req : Request)
    (hm : req.method = "GET" ∨ req.method = "HEAD")
    (hesc : normComponents [] (splitPath req.path) = none) :
    (handle fs req).status = 403 ∧
    ((handle fs req).body = forbiddenBody ∨ (handle fs req).body = "") ∧
    (∀ cs comps, normComponents [] cs = some comps → ∀ x ∈ comps, x ≠ "..") := by
  refine ⟨?_, ?_, ?_⟩
  · rcases hm with hg | hh
    · simp [handle, rawHandle, rawGet, hg, hesc, errorResponse, endHeaders]
    · by_cases hg : req.method = "GET"
      · simp [handle, rawHandle, rawGet, hg, hesc, errorResponse, endHeaders]
      · simp [handle, rawHandle, rawGet, hg, hh, hesc, errorResponse, endHeaders]
  · rcases hm with hg | hh
    · left
      simp [handle, rawHandle, rawGet, hg, hesc, errorResponse, endHeaders]
    · by_cases hg : req.method = "GET"
      · left
        simp [handle, rawHandle, rawGet, hg, hesc, errorResponse, endHeaders]
      · right
        simp [handle, rawHandle, rawGet, hg, hh, hesc, errorResponse, endHeaders]
  · intro cs comps hnorm x hx
    exact (normComponents_clean cs [] comps (by intro y hy; cases hy) hnorm x hx).1

/-- C2 witness: the traversal request `GET /../secret.txt` against
`fsRoot` is rejected with 403 and the fixed diagnostic body. -/
theorem c2_sandbox_witness :
    (handle fsRoot (Request.mk "GET" "/../secret.txt")).status = 403 ∧
    ((handle fsRoot (Request.mk "GET" "/../secret.txt")).body = forbiddenBody ∨
      (handle fsRoot (Request.mk "GET" "/../secret.txt")).body = "") :=
  ⟨(c2_sandbox fsRoot (Request.mk "GET" "/../secret.txt") (Or.inl rfl) rfl).1,
   (c2_sandbox fsRoot (Request.mk "GET" "/../secret.txt") (Or.inl rfl) rfl).2.1⟩

/-- C3: a `GET` request whose path normalizes and resolves inside the root
tree to an existing readable regular file is served with status 200 and a
body equal to the file's on-disk bytes. -/
theorem c3_file_served (fs : Node) (p : String) (comps : List String) (c : String)
    (hn : normComponents [] (splitPath p) = some comps)
    (hr : resolve fs comps = some (Node.file c true)) :
    (handle fs (Request.mk "GET" p)).status = 200 ∧
    (handle fs (Request.mk "GET" p)).body = c := by
  constructor
  · simp [handle, rawHandle, rawGet, hn, hr, okFile, endHeaders]
  · simp [handle, rawHandle, rawGet, hn, hr, okFile, endHeaders]

/-- C3 witness: `GET /index.html` against `fsHello` answers 200 with body
`hello`, the file's exact bytes. -/
theorem c3_file_served_witness :
    (handle fsHello (Request.mk "GET" "/index.html")).status = 200 ∧
    (handle fsHello (Request.mk "GET" "/index.html")).body = "hello" :=
  c3_file_served fsHello "/index.html" ["index.html"] "hello" rfl rfl

/-- C5: a request with any method other than `GET` and `HEAD` gets the
method-not-allowed response, whatever the path and filesystem. -/
theorem c5_method_not_allowed (fs : Node) (req : Request)
    (h1 : req.method ≠ "GET") (h2 : req.method ≠ "HEAD") :
    (handle fs req).status = 405 ∧ (handle fs req).body = methodNotAllowedBody := by
  constructor
  · simp [handle, rawHandle, h1, h2, errorResponse, endHeaders]
  · simp [handle, rawHandle, h1, h2, errorResponse, endHeaders]

/-- C5 witness: a `POST /` request against `fsHello` is answered with 405
and the method-not-allowed body. -/
theorem c5_method_not_allowed_witness :
    (handle fsHello (Request.mk "POST" "/")).status = 405 ∧
    (handle fsHello (Request.mk "POST" "/")).body = methodNotAllowedBody :=
  c5_method_not_allowed fsHello (Request.mk "POST" "/") (by decide) (by decide)

end NoCacheServer

namespace NoCacheServer

/-- The empty environment: neither `PORT` nor `ROOT_DIR` is set. -/
def envEmpty : String → Option String := fun _ => none

/-- Environment in which `PORT` is set to the non-numeric string `abc`. -/
def envBadPort : String → Option String :=
  fun k => if k = "PORT" then some "abc" else none

/-- C4: whenever startup succeeds in building a configuration, that
configuration is a pure one-shot function of the process environment: the
bind host is always `127.0.0.1`, the port is `8000` when `PORT` is unset
and otherwise the parsed integer value of `PORT`, and the root is `./`
(which normalizes to the same components as `.`, the current working
directory) when `ROOT_DIR` is unset and otherwise the value of
`ROOT_DIR`; the socket is then bound exactly on that host and port. -/
theorem c4_config_from_env (env : String → Option String) (c : Config)
    (h : readConfig env = some c) :
    c.host = "127.0.0.1" ∧
    (env "PORT" = none → c.port = 8000) ∧
    (∀ s, env "PORT" = some s → pyIntParse s = some c.port) ∧
    (env "ROOT_DIR" = none →
      c.root = "./" ∧
      normComponents [] (splitPath c.root) = normComponents [] (splitPath ".")) ∧
    (∀ s, env "ROOT_DIR" = some s → c.root = s) ∧
    startup env = Startup.bound "127.0.0.1" c.port c.root := by
  cases heq : pyIntParse ((env "PORT").getD "8000") with
  | none =>
    rw [readConfig, heq] at h
    exact Option.noConfusion h
  | some p =>
    rw [readConfig, heq] at h
    have hc := (Option.some.inj h).symm
    subst hc
    refine ⟨rfl, ?_, ?_, ?_, ?_, ?_⟩
    · intro hp
      rw [hp] at heq
      have h2 : (some (8000 : Int)) = some p :=
        (rfl : pyIntParse ((none : Option String).getD "8000") = some 8000).symm.trans heq
      exact (Option.some.inj h2).symm
    · intro s hs
      rw [hs] at heq
      exact heq
    · intro hroot
      rw [hroot]
      exact ⟨rfl, rfl⟩
    · intro s hs
      rw [hs]
      rfl
    · rw [startup, readConfig, heq]

/-- C4 witness: with an empty environment the configuration is port 8000,
root `./`, host `127.0.0.1`. -/
theorem c4_config_from_env_witness :
    (Config.mk 8000 "./" "127.0.0.1").host = "127.0.0.1" ∧
    (Config.mk 8000 "./" "127.0.0.1").port = 8000 ∧
    startup envEmpty = Startup.bound "127.0.0.1" 8000 "./" :=
  ⟨(c4_config_from_env envEmpty (Config.mk 8000 "./" "127.0.0.1") rfl).1,
   (c4_config_from_env envEmpty (Config.mk 8000 "./" "127.0.0.1") rfl).2.1 rfl,
   (c4_config_from_env envEmpty (Config.mk 8000 "./" "127.0.0.1") rfl).2.2.2.2.2⟩

/-- C6: a `GET` request that normalizes and resolves to an existing but
unreadable file inside the root is answered with status 500, and the
serve loop still answers every other request of the trace exactly as it
would alone: the failure does not stop the process from serving. -/
theorem c6_read_error_500 (fs : Node) (p : String) (comps : List String) (c : String)
    (hn : normComponents [] (splitPath p) = some comps)
    (hr : resolve fs comps = some (Node.file c false)) :
    (handle fs (Request.mk "GET" p)).status = 500 ∧
    ∀ (pre post : List Request),
      serveAll fs (pre ++ Request.mk "GET" p :: post) =
        serveAll fs pre ++ handle fs (Request.mk "GET" p) :: serveAll fs post := by
  constructor
  · simp [handle, rawHandle, rawGet, hn, hr, errorResponse, endHeaders]
  · intro pre post
    simp [serveAll]

/-- C6 witness: `GET /secret.txt` against the unreadable file of
`fsLocked` is answered 500, and a following request is still served. -/
theorem c6_read_error_500_witness :
    (handle fsLocked (Request.mk "GET" "/secret.txt")).status = 500 ∧
    serveAll fsLocked ([] ++ Request.mk "GET" "/secret.txt" :: [Request.mk "GET" "/"]) =
      serveAll fsLocked [] ++
        handle fsLocked (Request.mk "GET" "/secret.txt") :: serveAll fsLocked [Request.mk "GET" "/"] :=
  ⟨(c6_read_error_500 fsLocked "/secret.txt" ["secret.txt"] "locked" rfl rfl).1,
   (c6_read_error_500 fsLocked "/secret.txt" ["secret.txt"] "locked" rfl rfl).2 [] [Request.mk "GET" "/"]⟩

/-- C7: when `serve_forever` is ended by `KeyboardInterrupt`, `main`
catches it as a normal shutdown: it prints exactly the shutdown line, the
listening socket is closed before `main` returns, and the result is a
normal return (no exception), so the process exits with code zero. -/
theorem c7_interrupt_clean_shutdown :
    mainExit (PyResult.exn "KeyboardInterrupt") =
      MainExit.mk ["\nShutting down..."] true (PyResult.ok ()) := rfl

/-- C8: the request handler is a pure function of the filesystem state
and the request, so serving the same `GET` request twice against an
unchanged filesystem yields the same response both times — in particular
byte-identical bodies and identical header lists. -/
theorem c8_idempotent (fs : Node) (req : Request) :
    serveAll fs [req, req] = [handle fs req, handle fs req] := rfl

/-- C9: if `PORT` is set to a string that Python's `int` rejects, startup
fails with the uncaught `ValueError` before any socket is bound: no
configuration is ever built, so there is no fall-back to port 8000. -/
theorem c9_bad_port_fails_before_bind (env : String → Option String) (s : String)
    (hp : env "PORT" = some s) (hbad : pyIntParse s = none) :
    startup env = Startup.failedBeforeBind ∧ readConfig env = none := by
  have hc : readConfig env = none := by
    rw [readConfig, hp]
    simp only [Option.getD_some]
    rw [hbad]
  exact ⟨by rw [startup, hc], hc⟩

/-- C9 witness: with `PORT=abc` the process fails before binding and
builds no configuration. -/
theorem c9_bad_port_fails_before_bind_witness :
    startup envBadPort = Startup.failedBeforeBind ∧ readConfig envBadPort = none :=
  c9_bad_port_fails_before_bind envBadPort "abc" rfl rfl

/-- C10: a `GET` request for a directory inside the root with a trailing
slash is served with status 200 in both cases the claim distinguishes: a
readable conventional index file is streamed as the body, and otherwise
the body is the generated HTML listing, which names every entry of the
directory verbatim; neither case is a 403 or an error. -/
theorem c10_directory_listing (fs : Node) (p : String) (comps : List String)
    (es : List (String × Node))
    (hn : normComponents [] (splitPath p) = some comps)
    (hs : endsWithSlash p = true)
    (hr : resolve fs comps = some (Node.dir es)) :
    (∀ c, indexFile es = some (c, true) →
      (handle fs (Request.mk "GET" p)).status = 200 ∧
      (handle fs (Request.mk "GET" p)).body = c) ∧
    (indexFile es = none →
      (handle fs (Request.mk "GET" p)).status = 200 ∧
      (handle fs (Request.mk "GET" p)).body = listingBody (entryNames es) ∧
      ∀ nm ∈ entryNames es, nm.data <:+: ((handle fs (Request.mk "GET" p)).body).data) := by
  constructor
  · intro c hidx
    constructor
    · simp [handle, rawHandle, rawGet, hn, hr, hs, hidx, okFile, endHeaders]
    · simp [handle, rawHandle, rawGet, hn, hr, hs, hidx, okFile, endHeaders]
  · intro hidx
    have hbody : (handle fs (Request.mk "GET" p)).body = listingBody (entryNames es) := by
      simp [handle, rawHandle, rawGet, hn, hr, hs, hidx, endHeaders]
    refine ⟨?_, hbody, ?_⟩
    · simp [handle, rawHandle, rawGet, hn, hr, hs, hidx, endHeaders]
    · intro nm hnm
      rw [hbody]
      exact listingBody_has_name nm (entryNames es) hnm

/-- C10 witness: `GET /docs/` against `fsDocs` (no index file) answers
200 with the generated listing naming `a.txt`. -/
theorem c10_directory_listing_witness :
    (handle fsDocs (Request.mk "GET" "/docs/")).status = 200 ∧
    (handle fsDocs (Request.mk "GET" "/docs/")).body =
      listingBody (entryNames [("a.txt", Node.file "A" true)]) :=
  ⟨((c10_directory_listing fsDocs "/docs/" ["docs"] [("a.txt", Node.file "A" true)]
      rfl rfl rfl).2 rfl).1,
   ((c10_directory_listing fsDocs "/docs/" ["docs"] [("a.txt", Node.file "A" true)]
      rfl rfl rfl).2 rfl).2.1⟩

end NoCacheServer
